import Mathlib

/-!
# zed_cpu_ros: calibration loading and rectification set-up

A shallow embedding of `src/zed_cpu_ros.cpp` (namespace `arti`).

Conventions of the embedding
* C++ `double` values are exact rationals (`ℚ`); rounding is not modelled.
* C++ `int` is `Int`; the unsigned 32 bit `width`/`height` of a CameraInfo are
  `Nat` and the two conversions into them are written out.
* A `cv::Mat` of doubles is a header (`rows`, `cols`) with an accessor standing
  for `at<double>(i, j)`.
* The `boost::property_tree` read from the calibration file is a lookup from
  a path such as `LEFT_CAM_HD.fx` to the number stored there, if any.
* Code that throws returns `Except Err _`.
* Library routines whose code is not part of the repository (`read_ini`,
  `cv::Rodrigues`, the capture device) are parameters.
-/

namespace arti

/-! ## Exceptions -/

/-- Exceptions that unwind out of the driver. All three are subclasses of
`std::runtime_error`, which is what the constructor and `main` catch. -/
inductive Err where
  | ptree_bad_path (path : String)
  | ini_parser_error (file : String)
  | runtime_error (what : String)
  deriving DecidableEq

/-! ## Property tree -/

/-- The property tree filled by `read_ini`: path (section, dot, key) to the
number stored under it. `none` is a path under which no number is stored. -/
abbrev PTree := String → Option ℚ

/-- A tree given by its list of entries; the first entry of a path wins. -/
def PTree.ofList (entries : List (String × ℚ)) : PTree :=
  fun path => entries.lookup path

/-- Tree `pt` with the number under `path` replaced by `v`. -/
def PTree.put (pt : PTree) (path : String) (v : ℚ) : PTree :=
  fun p => if p = path then some v else pt p

/-- The call `pt.get_optional<double>(path)`. -/
def PTree.get_optional (pt : PTree) (path : String) : Option ℚ :=
  pt path

/-- The call `pt.get<double>(path)`, which throws when nothing is found. -/
def PTree.get (pt : PTree) (path : String) : Except Err ℚ :=
  match pt path with
  | some v => .ok v
  | none => .error (Err.ptree_bad_path path)

/-! ## Matrices -/

/-- A `cv::Mat` holding doubles. -/
structure Mat where
  rows : Nat
  cols : Nat
  elem : Nat → Nat → ℚ

/-- A default constructed `cv::Mat`. -/
def Mat.nil : Mat := ⟨0, 0, fun _ _ => 0⟩

/-- The call `m.empty()`: no element at all. -/
def Mat.empty (m : Mat) : Bool :=
  m.rows == 0 || m.cols == 0

/-- The comma initialiser `(cv::Mat1d(r, c) << x0, x1, ...)`, row-major. -/
def Mat.ofList (r c : Nat) (l : List ℚ) : Mat :=
  ⟨r, c, fun i j => l.getD (i * c + j) 0⟩

/-- The elements in the order `begin<double>() .. end<double>()` visits them:
row by row. -/
def Mat.toList (m : Mat) : List ℚ :=
  (List.range (m.rows * m.cols)).map fun k => m.elem (k / m.cols) (k % m.cols)

/-- The view `m.rowRange(a, b)`. -/
def Mat.rowRange (m : Mat) (a b : Nat) : Mat :=
  ⟨b - a, m.cols, fun i j => m.elem (a + i) j⟩

/-- The view `m.colRange(a, b)`. -/
def Mat.colRange (m : Mat) (a b : Nat) : Mat :=
  ⟨m.rows, b - a, fun i j => m.elem i (a + j)⟩

/-! ## Messages and driver object -/

/-- The fields of `sensor_msgs::CameraInfo` the driver writes. `K`, `R` and
`P` are fixed-size arrays of 9, 9 and 12 doubles, row-major. -/
structure CameraInfo where
  frame_id : String
  height : Nat
  width : Nat
  distortion_model : String
  D : List ℚ
  K : List ℚ
  R : List ℚ
  P : List ℚ

/-- A default constructed CameraInfo. -/
def CameraInfo.default : CameraInfo :=
  { frame_id := "", height := 0, width := 0, distortion_model := "", D := [],
    K := List.replicate 9 0, R := List.replicate 9 0, P := List.replicate 12 0 }

/-- The private members of `ZedCameraROS` (lines 474 to 483). -/
structure ZedCameraROS where
  WIDTH : Int
  HEIGHT : Int
  K_l : Mat
  K_r : Mat
  P_l : Mat
  P_r : Mat
  R_l : Mat
  R_r : Mat
  D_l : Mat
  D_r : Mat
  resolution_ : Int
  frame_rate_ : ℚ
  show_image_ : Bool
  load_zed_config_ : Bool
  rectify_image_ : Bool
  width_ : ℚ
  height_ : ℚ
  left_frame_id_ : String
  right_frame_id_ : String
  config_file_location_ : String
  undistort_config_file_location_ : String
  M1l : Mat
  M2l : Mat
  M1r : Mat
  M2r : Mat

/-- Library routines the driver calls and whose code is outside the
repository. -/
structure Env where
  /-- The call `boost::property_tree::ini_parser::read_ini(file, pt)`. -/
  read_ini : String → Except Err PTree
  /-- The call `cv::Rodrigues(rvec, rmat)`: rotation vector to matrix. -/
  Rodrigues : Mat → Mat
  /-- The message a `CameraInfoManager` named `name` returns once it has
  loaded the file at `url`. -/
  loadCameraInfo : String → String → CameraInfo

/-! ## Conversions into the unsigned 32 bit fields -/

/-- Conversion of an `int` to `uint32_t`: reduction modulo `2^32`. -/
def intToUInt32 (i : Int) : Nat :=
  (i % 4294967296).toNat

/-- Conversion of a `double` to `uint32_t`: the fractional part is dropped.
(Values whose integer part does not fit are undefined in C++; here they are
reduced modulo `2^32`, negative ones give 0.) -/
def doubleToUInt32 (x : ℚ) : Nat :=
  (Int.toNat ⌊x⌋) % 4294967296

/-- The call `v.resize(n)` on a `std::vector<double>`. -/
def resize (v : List ℚ) (n : Nat) : List ℚ :=
  (v ++ List.replicate n 0).take n

/-! ## getZedCameraInfo -/

/-- The profile tag chosen by the `switch` of lines 278 to 285. The switch has
no `default` label: any other selector leaves the tag empty. -/
def resoStr (resolution : Int) : String :=
  if resolution = 0 then "2K"
  else if resolution = 1 then "FHD"
  else if resolution = 2 then "HD"
  else if resolution = 3 then "VGA"
  else ""

/-- Lines 301 to 312: the baseline in metres. -/
def resolveBaseline (pt : PTree) : Except Err ℚ :=
  match pt.get_optional "STEREO.BaseLine" with
  | some _ => do
    let v ← pt.get "STEREO.BaseLine"
    pure (v * 0.001)
  | none =>
    match pt.get_optional "STEREO.Baseline" with
    | some _ => do
      let v ← pt.get "STEREO.Baseline"
      pure (v * 0.001)
    | none => throw (Err.runtime_error "baseline parameter not found")

/-- Lines 314 to 317: the three components `(rx, ry, rz)`, read in the order
`rx`, `rz`, `ry`. -/
def readRotation (pt : PTree) (reso_str : String) : Except Err (ℚ × ℚ × ℚ) := do
  let rx ← pt.get ("STEREO.RX_" ++ reso_str)
  let rz ← pt.get ("STEREO.RZ_" ++ reso_str)
  let ry ← pt.get ("STEREO.CV_" ++ reso_str)
  pure (rx, ry, rz)

/-- The loop of lines 382 to 388: element number `id` of the rotation matrix
goes to slot `id` of both `R` arrays. (A slot past the end of an array, which
C++ leaves undefined, is skipped.) -/
def copyRotation : List ℚ → Nat → List ℚ → List ℚ → List ℚ × List ℚ
  | [], _, left_R, right_R => (left_R, right_R)
  | x :: rest, id, left_R, right_R =>
    copyRotation rest (id + 1) (left_R.set id x) (right_R.set id x)

/-- The numbers `getZedCameraInfo` reads from the property tree, under the
names of its local variables. -/
structure Fields where
  l_cx : ℚ
  l_cy : ℚ
  l_fx : ℚ
  l_fy : ℚ
  l_k1 : ℚ
  l_k2 : ℚ
  r_cx : ℚ
  r_cy : ℚ
  r_fx : ℚ
  r_fy : ℚ
  r_k1 : ℚ
  r_k2 : ℚ
  baseline : ℚ
  rx : ℚ
  ry : ℚ
  rz : ℚ

/-- Lines 276 to 317 of `getZedCameraInfo`: every read of the property tree, in
source order. The first read that finds nothing throws. -/
def readFields (pt : PTree) (resolution : Int) : Except Err Fields := do
  let left_str := "LEFT_CAM_"
  let right_str := "RIGHT_CAM_"
  let reso_str := resoStr resolution
  -- left value
  let l_cx ← pt.get (left_str ++ reso_str ++ ".cx")
  let l_cy ← pt.get (left_str ++ reso_str ++ ".cy")
  let l_fx ← pt.get (left_str ++ reso_str ++ ".fx")
  let l_fy ← pt.get (left_str ++ reso_str ++ ".fy")
  let l_k1 ← pt.get (left_str ++ reso_str ++ ".k1")
  let l_k2 ← pt.get (left_str ++ reso_str ++ ".k2")
  -- right value
  let r_cx ← pt.get (right_str ++ reso_str ++ ".cx")
  let r_cy ← pt.get (right_str ++ reso_str ++ ".cy")
  let r_fx ← pt.get (right_str ++ reso_str ++ ".fx")
  let r_fy ← pt.get (right_str ++ reso_str ++ ".fy")
  let r_k1 ← pt.get (right_str ++ reso_str ++ ".k1")
  let r_k2 ← pt.get (right_str ++ reso_str ++ ".k2")
  -- get baseline and convert mm to m
  let baseline ← resolveBaseline pt
  -- get Rx and Rz
  let r ← readRotation pt reso_str
  pure { l_cx := l_cx, l_cy := l_cy, l_fx := l_fx, l_fy := l_fy, l_k1 := l_k1, l_k2 := l_k2,
         r_cx := r_cx, r_cy := r_cy, r_fx := r_fx, r_fy := r_fy, r_k1 := r_k1, r_k2 := r_k2,
         baseline := baseline, rx := r.1, ry := r.2.1, rz := r.2.2 }

/-- Lines 319 to 421 of `getZedCameraInfo`, for the left message: the
assignments to `left_info`, in source order (a later assignment to a field
overrides an earlier one). `rmat` is the matrix `cv::Rodrigues` returned. -/
def fillLeftInfo (self : ZedCameraROS) (f : Fields) (rmat : Mat) (left_info : CameraInfo) :
    CameraInfo :=
  let p1 : ℚ := 0
  let p2 : ℚ := 0
  let k3 : ℚ := 0
  let left_info := { left_info with height := intToUInt32 self.HEIGHT }
  let left_info := { left_info with width := intToUInt32 self.WIDTH }
  let left_info := { left_info with distortion_model := "plumb_bob" }
  let left_info := { left_info with
    D := ((((((resize left_info.D 5).set 0 f.l_k1).set 1 f.l_k2).set 2 k3).set 3 p1).set 4 p2) }
  let left_info := { left_info with
    K := ((((((List.replicate 9 (0 : ℚ)).set 0 f.l_fx).set 2 f.l_cx).set 4 f.l_fy).set 5
      f.l_cy).set 8 1) }
  let left_info := { left_info with
    R := (copyRotation rmat.toList 0 (List.replicate 9 0) (List.replicate 9 0)).1 }
  let left_info := { left_info with
    P := ((((((List.replicate 12 (0 : ℚ)).set 0 f.l_fx).set 2 f.l_cx).set 5 f.l_fy).set 6
      f.l_cy).set 10 1) }
  -- lines 417 and 418
  let left_info := { left_info with width := doubleToUInt32 self.width_ }
  let left_info := { left_info with height := doubleToUInt32 self.height_ }
  { left_info with frame_id := self.left_frame_id_ }

/-- Lines 319 to 421 of `getZedCameraInfo`, for the right message. -/
def fillRightInfo (self : ZedCameraROS) (f : Fields) (rmat : Mat) (right_info : CameraInfo) :
    CameraInfo :=
  let p1 : ℚ := 0
  let p2 : ℚ := 0
  let k3 : ℚ := 0
  let right_info := { right_info with height := intToUInt32 self.HEIGHT }
  let right_info := { right_info with width := intToUInt32 self.WIDTH }
  let right_info := { right_info with distortion_model := "plumb_bob" }
  let right_info := { right_info with
    D := ((((((resize right_info.D 5).set 0 f.r_k1).set 1 f.r_k2).set 2 k3).set 3 p1).set 4 p2) }
  let right_info := { right_info with
    K := ((((((List.replicate 9 (0 : ℚ)).set 0 f.r_fx).set 2 f.r_cx).set 4 f.r_fy).set 5
      f.r_cy).set 8 1) }
  let right_info := { right_info with
    R := (copyRotation rmat.toList 0 (List.replicate 9 0) (List.replicate 9 0)).2 }
  let right_info := { right_info with
    P := (((((((List.replicate 12 (0 : ℚ)).set 0 f.r_fx).set 2 f.r_cx).set 3
      (-1 * f.l_fx * f.baseline)).set 5 f.r_fy).set 6 f.r_cy).set 10 1) }
  -- lines 417 and 418
  let right_info := { right_info with width := doubleToUInt32 self.width_ }
  let right_info := { right_info with height := doubleToUInt32 self.height_ }
  { right_info with frame_id := self.right_frame_id_ }

/-- Lines 319 to 421 of `getZedCameraInfo`, for the driver object: the
assignments to the matrix members. -/
def fillMatrices (self : ZedCameraROS) (f : Fields) (rmat : Mat) : ZedCameraROS :=
  let p1 : ℚ := 0
  let p2 : ℚ := 0
  let k3 : ℚ := 0
  { self with
    D_l := Mat.ofList 1 5 [f.l_k1, f.l_k2, k3, p1, p2]
    D_r := Mat.ofList 1 5 [f.r_k1, f.r_k2, k3, p1, p2]
    K_l := Mat.ofList 3 3 [f.l_fx, 0, f.l_cx, 0, f.l_fy, f.l_cy, 0, 0, 1]
    K_r := Mat.ofList 3 3 [f.r_fx, 0, f.r_cx, 0, f.r_fy, f.r_cy, 0, 0, 1]
    R_r := rmat
    R_l := rmat
    P_l := Mat.ofList 3 4 [f.l_fx, 0, f.l_cx, 0, 0, f.l_fy, f.l_cy, 0, 0, 0, 1, 0]
    P_r := Mat.ofList 3 4
      [f.r_fx, 0, f.r_cx, -1 * f.l_fx * f.baseline, 0, f.r_fy, f.r_cy, 0, 0, 0, 1, 0] }

/-- The method `ZedCameraROS::getZedCameraInfo` (lines 273 to 425). The result
is the driver object and the two messages after the call. -/
def getZedCameraInfo (env : Env) (self : ZedCameraROS) (config_file : String)
    (resolution : Int) (left_info right_info : CameraInfo) :
    Except Err (ZedCameraROS × CameraInfo × CameraInfo) := do
  let pt ← env.read_ini config_file
  let f ← readFields pt resolution
  -- rectification matrix (lines 379 to 381)
  let rvec := Mat.ofList 3 1 [f.rx, f.ry, f.rz]
  let rmat := env.Rodrigues rvec
  pure (fillMatrices self f rmat, fillLeftInfo self f rmat left_info,
    fillRightInfo self f rmat right_info)

/-! ## getUndistortedMaps -/

/-- Modelled from the spec: the matrix inverse that steps 1 and 2 of section
4.2 apply belongs to `cv::initUndistortRectifyMap`, which is not in the
repository. Inverse of a 3×3 matrix: adjugate over determinant; a singular
matrix gives the zero matrix. -/
def inv3 (m : Mat) : Mat :=
  let a := m.elem 0 0
  let b := m.elem 0 1
  let c := m.elem 0 2
  let d := m.elem 1 0
  let e := m.elem 1 1
  let f := m.elem 1 2
  let g := m.elem 2 0
  let h := m.elem 2 1
  let i := m.elem 2 2
  let det := a * (e * i - f * h) - b * (d * i - f * g) + c * (d * h - e * g)
  Mat.ofList 3 3
    [(e * i - f * h) / det, (c * h - b * i) / det, (b * f - c * e) / det,
     (f * g - d * i) / det, (a * i - c * g) / det, (c * d - a * f) / det,
     (d * h - e * g) / det, (b * g - a * h) / det, (a * e - b * d) / det]

/-- Modelled from the spec: the matrix-vector product that steps 1 and 2 of
section 4.2 apply belongs to `cv::initUndistortRectifyMap`, which is not in the
repository. Product of a 3×3 matrix with the column vector `(x, y, z)`. -/
def mulVec3 (m : Mat) (x y z : ℚ) : ℚ × ℚ × ℚ :=
  (m.elem 0 0 * x + m.elem 0 1 * y + m.elem 0 2 * z,
   m.elem 1 0 * x + m.elem 1 1 * y + m.elem 1 2 * z,
   m.elem 2 0 * x + m.elem 2 1 * y + m.elem 2 2 * z)

/-- Modelled from the spec: the body of `cv::initUndistortRectifyMap` for one
output pixel `(u, v)` is not in the repository; this follows steps 1 to 4 of
the algorithm of section 4.2. `D` is read in the order `(k1, k2, p1, p2, k3)`
that the comment on line 332 gives for plumb bob. -/
def undistortRectifyPoint (K D R newK : Mat) (u v : ℚ) : ℚ × ℚ :=
  -- 1. back-project through the inverse of the rectified camera matrix
  let ray := mulVec3 (inv3 newK) u v 1
  -- 2. inverse of the rectifying rotation, then the normalised point
  let p := mulVec3 (inv3 R) ray.1 ray.2.1 ray.2.2
  let x := p.1 / p.2.2
  let y := p.2.1 / p.2.2
  -- 3. plumb bob distortion
  let k1 := D.elem 0 0
  let k2 := D.elem 0 1
  let p1 := D.elem 0 2
  let p2 := D.elem 0 3
  let k3 := D.elem 0 4
  let r2 := x * x + y * y
  let radial := 1 + k1 * r2 + k2 * r2 ^ 2 + k3 * r2 ^ 3
  let x_d := x * radial + 2 * p1 * x * y + p2 * (r2 + 2 * x * x)
  let y_d := y * radial + p1 * (r2 + 2 * y * y) + 2 * p2 * x * y
  -- 4. through the original intrinsic matrix
  (K.elem 0 0 * x_d + K.elem 0 2, K.elem 1 1 * y_d + K.elem 1 2)

/-- Modelled from the spec: `cv::initUndistortRectifyMap(K, D, R, newK, size,
CV_32F, map1, map2)` is not in the repository; step 5 of section 4.2 stores
the source coordinates of pixel `(u, v)` at row `v`, column `u` of the x-map
and of the y-map. A negative size gives no rows or columns. -/
def initUndistortRectifyMap (K D R newK : Mat) (width height : Int) : Mat × Mat :=
  (⟨height.toNat, width.toNat, fun v u => (undistortRectifyPoint K D R newK u v).1⟩,
   ⟨height.toNat, width.toNat, fun v u => (undistortRectifyPoint K D R newK u v).2⟩)

/-- The guard of lines 431 and 432. -/
def parametersMissing (self : ZedCameraROS) : Bool :=
  self.K_l.empty || self.K_r.empty || self.P_l.empty || self.P_r.empty || self.R_l.empty ||
    self.R_r.empty || self.D_l.empty || self.D_r.empty || self.WIDTH == 0 || self.HEIGHT == 0

/-- The method `ZedCameraROS::getUndistortedMaps` (lines 428 to 441). The
result is the driver object after the call and the text written to
`std::cerr`. -/
def getUndistortedMaps (self : ZedCameraROS) : Except Err (ZedCameraROS × List String) :=
  if parametersMissing self then
    pure (self, ["ERROR: Calibration parameters to rectify stereo are missing!", "/n"])
  else
    let left := initUndistortRectifyMap self.K_l self.D_l self.R_l
      ((self.P_l.rowRange 0 3).colRange 0 3) (Int.tdiv self.WIDTH 2) self.HEIGHT
    let self := { self with M1l := left.1, M2l := left.2 }
    let right := initUndistortRectifyMap self.K_r self.D_r self.R_r
      ((self.P_r.rowRange 0 3).colRange 0 3) (Int.tdiv self.WIDTH 2) self.HEIGHT
    let self := { self with M1r := right.1, M2r := right.2 }
    pure (self, [])

/-! ## StereoCamera -/

/-- The capture property identifiers (lines 16 to 18). -/
def WIDTH_ID : Nat := 3

/-- See `WIDTH_ID`. -/
def HEIGHT_ID : Nat := 4

/-- The capture device behind `cv::VideoCapture`: what `get(id)` reports
after `set(WIDTH_ID, w)` and `set(HEIGHT_ID, h)`. -/
abbrev VideoCapture := ℚ → ℚ → Nat → ℚ

/-- Conversion of a `double` to `int`: truncation towards zero. -/
def doubleToInt (x : ℚ) : Int :=
  if 0 ≤ x then ⌊x⌋ else ⌈x⌉

/-- The public members of `StereoCamera` other than the device. -/
structure StereoCamera where
  width_ : Int
  height_ : Int
  frame_rate_ : ℚ

/-- Lines 63 to 66 of `setResolution`: the size asked for. There is no
`else`: for any other `type` both members keep the value they had. -/
def requestedSize (type : Int) (width_ height_ : Int) : Int × Int :=
  let (width_, height_) := if type = 0 then (4416, 1242) else (width_, height_)
  let (width_, height_) := if type = 1 then (3840, 1080) else (width_, height_)
  let (width_, height_) := if type = 2 then (2560, 720) else (width_, height_)
  let (width_, height_) := if type = 3 then (1344, 376) else (width_, height_)
  (width_, height_)

/-- The method `StereoCamera::setResolution` (lines 60 to 77). -/
def StereoCamera.setResolution (camera_ : VideoCapture) (self : StereoCamera) (type : Int) :
    StereoCamera :=
  let req := requestedSize type self.width_ self.height_
  -- make sure that the number set are right from the hardware
  { self with
    width_ := doubleToInt (camera_ req.1 req.2 WIDTH_ID)
    height_ := doubleToInt (camera_ req.1 req.2 HEIGHT_ID) }

/-- The constructor `StereoCamera::StereoCamera` (lines 34 to 48). `width_`
and `height_` have no initialiser: `mem` holds whatever they start with. -/
def StereoCamera.new (camera_ : VideoCapture) (mem : StereoCamera) (resolution : Int)
    (_frame_rate : ℚ) : StereoCamera :=
  StereoCamera.setResolution camera_ { mem with frame_rate_ := 30 } resolution

/-- An image buffer, described by how it was obtained. -/
inductive Image where
  | empty
  | roi (frame : Nat) (x y width height : Int)
  | hconcat (a b : Image)
  | remap (src : Image) (map1 map2 : Mat)

/-- The method `StereoCamera::getImages` (lines 97 to 110). `grab` is `none`
when `camera_->grab()` fails and the number of the retrieved frame otherwise;
the two images are passed by reference and are written only on success. -/
def StereoCamera.getImages (self : StereoCamera) (grab : Option Nat)
    (left_image right_image : Image) : Bool × Image × Image :=
  match grab with
  | some raw =>
    (true, Image.roi raw 0 0 (Int.tdiv self.width_ 2) self.height_,
      Image.roi raw (Int.tdiv self.width_ 2) 0 (Int.tdiv self.width_ 2) self.height_)
  | none => (false, left_image, right_image)

/-! ## The constructor of ZedCameraROS and its frame loop -/

/-- The values found on the ROS parameter server, `none` where a parameter is
not set. -/
structure RosParams where
  resolution : Option Int
  frame_rate : Option ℚ
  config_file_location : Option String
  left_frame_id : Option String
  right_frame_id : Option String
  show_image : Option Bool
  rectify_image : Option Bool
  load_zed_config : Option Bool

/-- One pass of `while (nh.ok())` in which `nh.ok()` held: the outcome of
`camera_->grab()` and the subscriber count of every topic. -/
structure Tick where
  grab : Option Nat
  getNumSubscribers : String → Nat

/-- A call the constructor makes to OpenCV or to a publisher, or a write to
`std::cerr`. -/
inductive Event where
  | cerr (text : String)
  | getImages (result : Bool)
  | imshow (winname : String) (img : Image)
  | hconcat (a b : Image)
  | remap (src : Image) (map1 map2 : Mat)
  | publishImage (topic frame_id : String) (img : Image)
  | publishCamInfo (topic : String) (info : CameraInfo)

/-- An image is published when its topic has a subscriber. -/
def publishIfSubscribed (t : Tick) (topic frame_id : String) (img : Image) : List Event :=
  if t.getNumSubscribers topic > 0 then [Event.publishImage topic frame_id img] else []

/-- A camera info message is published when its topic has a subscriber. -/
def publishCamInfoIfSubscribed (t : Tick) (topic : String) (info : CameraInfo) : List Event :=
  if t.getNumSubscribers topic > 0 then [Event.publishCamInfo topic info] else []

/-- The body of the frame loop (lines 214 to 260) for one pass: the calls it
makes, in order, and the two image buffers after the pass. Every library call
is taken to return normally. -/
def frameLoopBody (self : ZedCameraROS) (zed : StereoCamera) (left_info right_info : CameraInfo)
    (t : Tick) (left_image right_image : Image) : List Event × Image × Image :=
  let got := zed.getImages t.grab left_image right_image
  let left_image := got.2.1
  let right_image := got.2.2
  let shown :=
    if self.show_image_ then [Event.imshow "left" left_image, Event.imshow "right" right_image]
    else []
  let wholeRawImage := Image.hconcat left_image right_image
  let rectified :=
    if self.rectify_image_ then
      let imLeftRec := Image.remap left_image self.M1l self.M2l
      let imRightRec := Image.remap right_image self.M1r self.M2r
      let wholeRecImage := Image.hconcat imLeftRec imRightRec
      [Event.remap left_image self.M1l self.M2l, Event.remap right_image self.M1r self.M2r,
        Event.hconcat imLeftRec imRightRec]
      ++ publishIfSubscribed t "left/image_rectified" "rec_left_frame" imLeftRec
      ++ publishIfSubscribed t "right/image_rectified" "rec_right_frame" imRightRec
      ++ publishIfSubscribed t "wholeRecImage" "rec_whole_frame" wholeRecImage
    else []
  ([Event.getImages got.1] ++ shown ++ [Event.hconcat left_image right_image] ++ rectified
    ++ publishIfSubscribed t "wholeRawImage" "raw_whole_frame" wholeRawImage
    ++ publishIfSubscribed t "left/image_raw" "left_frame" left_image
    ++ publishIfSubscribed t "right/image_raw" "right_frame" right_image
    ++ publishCamInfoIfSubscribed t "left/camera_info" left_info
    ++ publishCamInfoIfSubscribed t "right/camera_info" right_info,
   left_image, right_image)

/-- The loop `while (nh.ok())` of lines 213 to 262, run over the passes in
which `nh.ok()` held. The loop writes no member of the driver object. -/
def frameLoop (self : ZedCameraROS) (zed : StereoCamera) (left_info right_info : CameraInfo) :
    List Tick → Image → Image → List Event
  | [], _, _ => []
  | t :: rest, left_image, right_image =>
    let pass := frameLoopBody self zed left_info right_info t left_image right_image
    pass.1 ++ frameLoop self zed left_info right_info rest pass.2.1 pass.2.2

/-- Lines 176 to 203 of the constructor: the calibration is loaded from the
ZED file or from the ROS files. An exception caught on line 184 is thrown
again on line 187. -/
def loadCalibration (env : Env) (self : ZedCameraROS) (left_info right_info : CameraInfo) :
    Except Err (ZedCameraROS × CameraInfo × CameraInfo × List Event) :=
  if self.load_zed_config_ then do
    let got ← getZedCameraInfo env self self.config_file_location_ self.resolution_
      left_info right_info
    let maps ← getUndistortedMaps got.1
    pure (maps.1, got.2.1, got.2.2, maps.2.map Event.cerr)
  else
    let left_info := env.loadCameraInfo "zed/left" "package://zed_cpu_ros/config/left.yaml"
    let right_info := env.loadCameraInfo "zed/right" "package://zed_cpu_ros/config/right.yaml"
    let left_info := { left_info with frame_id := self.left_frame_id_ }
    let right_info := { right_info with frame_id := self.right_frame_id_ }
    pure (self, left_info, right_info, [])

/-- The constructor `ZedCameraROS::ZedCameraROS` (lines 136 to 263). `mem` and
`zedMem` hold the members that have no initialiser (`cv::Mat` members start
empty whatever `mem` says); `ticks` are the passes of the frame loop before
`nh.ok()` fails. The result is the driver object and the calls made. -/
def ZedCameraROS.new (env : Env) (camera_ : VideoCapture) (params : RosParams)
    (mem : ZedCameraROS) (zedMem : StereoCamera) (ticks : List Tick) :
    Except Err (ZedCameraROS × List Event) := do
  let self : ZedCameraROS :=
    { mem with
      K_l := Mat.nil, K_r := Mat.nil, P_l := Mat.nil, P_r := Mat.nil
      R_l := Mat.nil, R_r := Mat.nil, D_l := Mat.nil, D_r := Mat.nil
      M1l := Mat.nil, M2l := Mat.nil, M1r := Mat.nil, M2r := Mat.nil
      left_frame_id_ := "", right_frame_id_ := "", config_file_location_ := ""
      undistort_config_file_location_ := "" }
  -- get ros param
  let self := { self with
    resolution_ := params.resolution.getD 1
    frame_rate_ := params.frame_rate.getD 30
    config_file_location_ := params.config_file_location.getD "~/SN1267.conf"
    left_frame_id_ := params.left_frame_id.getD "left_camera"
    right_frame_id_ := params.right_frame_id.getD "right_camera"
    show_image_ := params.show_image.getD false
    rectify_image_ := params.rectify_image.getD true
    load_zed_config_ := params.load_zed_config.getD true }
  let zed := StereoCamera.new camera_ zedMem self.resolution_ self.frame_rate_
  let self := { self with WIDTH := zed.width_, HEIGHT := zed.height_ }
  let loaded ← loadCalibration env self CameraInfo.default CameraInfo.default
  let self := loaded.1
  -- loop to publish images
  pure (self, loaded.2.2.2 ++
    frameLoop self zed loaded.2.1 loaded.2.2.1 ticks Image.empty Image.empty)


/-! ## Inputs used to instantiate the theorems -/

/-- The calibration of the end-to-end scenario: HD profile, both cameras with
`fx = fy = 700`, `cx = 640`, `cy = 360`, no distortion, baseline 120 mm and
a zero rotation vector. -/
def hdTree : PTree := PTree.ofList
  [("LEFT_CAM_HD.cx", 640), ("LEFT_CAM_HD.cy", 360), ("LEFT_CAM_HD.fx", 700),
   ("LEFT_CAM_HD.fy", 700), ("LEFT_CAM_HD.k1", 0), ("LEFT_CAM_HD.k2", 0),
   ("RIGHT_CAM_HD.cx", 640), ("RIGHT_CAM_HD.cy", 360), ("RIGHT_CAM_HD.fx", 700),
   ("RIGHT_CAM_HD.fy", 700), ("RIGHT_CAM_HD.k1", 0), ("RIGHT_CAM_HD.k2", 0),
   ("STEREO.BaseLine", 120), ("STEREO.RX_HD", 0), ("STEREO.CV_HD", 0), ("STEREO.RZ_HD", 0)]

/-- What `readFields` finds in `hdTree`. -/
def hdFields : Fields :=
  { l_cx := 640, l_cy := 360, l_fx := 700, l_fy := 700, l_k1 := 0, l_k2 := 0,
    r_cx := 640, r_cy := 360, r_fx := 700, r_fy := 700, r_k1 := 0, r_k2 := 0,
    baseline := 120 * 0.001, rx := 0, ry := 0, rz := 0 }

/-- The 3×3 identity matrix. -/
def eye3 : Mat := Mat.ofList 3 3 [1, 0, 0, 0, 1, 0, 0, 0, 1]

/-- An environment in which every calibration file reads as `hdTree` and the
rotation vector (zero in `hdTree`) converts to the identity matrix. -/
def hdEnv : Env :=
  { read_ini := fun _ => .ok hdTree
    Rodrigues := fun _ => eye3
    loadCameraInfo := fun _ _ => CameraInfo.default }

/-- A driver object as the constructor leaves it before loading an HD
calibration: capture size 2560 × 720, no matrix yet, and `width_`, `height_`
holding zero. -/
def hdSelf : ZedCameraROS :=
  { WIDTH := 2560, HEIGHT := 720
    K_l := Mat.nil, K_r := Mat.nil, P_l := Mat.nil, P_r := Mat.nil
    R_l := Mat.nil, R_r := Mat.nil, D_l := Mat.nil, D_r := Mat.nil
    resolution_ := 2, frame_rate_ := 30
    show_image_ := false, load_zed_config_ := true, rectify_image_ := true
    width_ := 0, height_ := 0
    left_frame_id_ := "left_camera", right_frame_id_ := "right_camera"
    config_file_location_ := "~/SN1267.conf", undistort_config_file_location_ := ""
    M1l := Mat.nil, M2l := Mat.nil, M1r := Mat.nil, M2r := Mat.nil }

/-- What `getZedCameraInfo` returns for `hdSelf` and `hdTree`. -/
def hdOut : ZedCameraROS × CameraInfo × CameraInfo :=
  (fillMatrices hdSelf hdFields eye3, fillLeftInfo hdSelf hdFields eye3 CameraInfo.default,
    fillRightInfo hdSelf hdFields eye3 CameraInfo.default)

/-- A capture device that takes the size it is asked for and reports it. -/
def honestCamera : VideoCapture :=
  fun w h id => if id = WIDTH_ID then w else if id = HEIGHT_ID then h else 0

/-- A capture device that could not be opened: every `get` reports 0. -/
def closedCamera : VideoCapture :=
  fun _ _ _ => 0

/-- A parameter server on which nothing is set: every default applies. -/
def noParams : RosParams :=
  { resolution := none, frame_rate := none, config_file_location := none, left_frame_id := none,
    right_frame_id := none, show_image := none, rectify_image := none, load_zed_config := none }

/-- Members of a `StereoCamera` before its constructor runs. -/
def zedMem : StereoCamera :=
  { width_ := 0, height_ := 0, frame_rate_ := 0 }

/-- A pass of the frame loop with the given outcome of `grab` in which no
topic has a subscriber. -/
def quietTick (grab : Option Nat) : Tick :=
  { grab := grab, getNumSubscribers := fun _ => 0 }

/-- A pass of the frame loop with the given outcome of `grab` in which every
topic has one subscriber. -/
def busyTick (grab : Option Nat) : Tick :=
  { grab := grab, getNumSubscribers := fun _ => 1 }

/-- The driver object of the end-to-end scenario once `getUndistortedMaps`
has run on it. -/
def hdReady : ZedCameraROS :=
  match getUndistortedMaps hdOut.1 with
  | .ok r => r.1
  | .error _ => hdOut.1

/-- The HD camera object: 2560 × 720. -/
def hdZed : StereoCamera :=
  StereoCamera.new honestCamera zedMem 2 30

/-- A calibration whose keys carry no profile tag. -/
def untaggedTree : PTree := PTree.ofList
  [("LEFT_CAM_.cx", 640), ("LEFT_CAM_.cy", 360), ("LEFT_CAM_.fx", 700),
   ("LEFT_CAM_.fy", 700), ("LEFT_CAM_.k1", 0), ("LEFT_CAM_.k2", 0),
   ("RIGHT_CAM_.cx", 640), ("RIGHT_CAM_.cy", 360), ("RIGHT_CAM_.fx", 700),
   ("RIGHT_CAM_.fy", 700), ("RIGHT_CAM_.k1", 0), ("RIGHT_CAM_.k2", 0),
   ("STEREO.BaseLine", 120), ("STEREO.RX_", 0), ("STEREO.CV_", 0), ("STEREO.RZ_", 0)]

/-- Every one of the twelve per-camera fields of the profile `tag` holds a
number in `pt`. -/
def perCameraFieldsPresent (pt : PTree) (tag : String) : Bool :=
  ["LEFT_CAM_", "RIGHT_CAM_"].all fun cam =>
    [".cx", ".cy", ".fx", ".fy", ".k1", ".k2"].all fun field =>
      (pt (cam ++ tag ++ field)).isSome

/-! ## Lemmas on the exception monad and the reads -/

theorem bind_eq_ok {ε α β : Type} (x : Except ε α) (f : α → Except ε β) (b : β) :
    (x >>= f) = .ok b ↔ ∃ a, x = .ok a ∧ f a = .ok b := by
  cases x <;> simp [bind, Except.bind]

theorem PTree.get_eq_ok (pt : PTree) (p : String) (v : ℚ) :
    pt.get p = .ok v ↔ pt p = some v := by
  unfold PTree.get
  cases h : pt p <;> simp

theorem resolveBaseline_first (pt : PTree) (v : ℚ) (h : pt "STEREO.BaseLine" = some v) :
    resolveBaseline pt = .ok (v * 0.001) := by
  simp [resolveBaseline, PTree.get_optional, PTree.get, h, bind, Except.bind, pure, Except.pure]

theorem resolveBaseline_second (pt : PTree) (w : ℚ) (h : pt "STEREO.BaseLine" = none)
    (h2 : pt "STEREO.Baseline" = some w) : resolveBaseline pt = .ok (w * 0.001) := by
  simp [resolveBaseline, PTree.get_optional, PTree.get, h, h2, bind, Except.bind, pure,
    Except.pure]

theorem resolveBaseline_neither (pt : PTree) (h : pt "STEREO.BaseLine" = none)
    (h2 : pt "STEREO.Baseline" = none) :
    resolveBaseline pt = .error (Err.runtime_error "baseline parameter not found") := by
  simp [resolveBaseline, PTree.get_optional, h, h2, throw, throwThe, MonadExceptOf.throw]

theorem resolveBaseline_ok (pt : PTree) (b : ℚ) (h : resolveBaseline pt = .ok b) :
    ∃ mm, (pt "STEREO.BaseLine" = some mm ∨
      (pt "STEREO.BaseLine" = none ∧ pt "STEREO.Baseline" = some mm)) ∧ b = mm * 0.001 := by
  cases h1 : pt "STEREO.BaseLine" with
  | some v =>
    rw [resolveBaseline_first pt v h1] at h
    exact ⟨v, Or.inl rfl, (Except.ok.inj h).symm⟩
  | none =>
    cases h2 : pt "STEREO.Baseline" with
    | some w =>
      rw [resolveBaseline_second pt w h1 h2] at h
      exact ⟨w, Or.inr ⟨rfl, rfl⟩, (Except.ok.inj h).symm⟩
    | none =>
      rw [resolveBaseline_neither pt h1 h2] at h
      cases h

theorem readRotation_ok (pt : PTree) (tag : String) (r : ℚ × ℚ × ℚ)
    (h : readRotation pt tag = .ok r) :
    pt ("STEREO.RX_" ++ tag) = some r.1 ∧ pt ("STEREO.CV_" ++ tag) = some r.2.1 ∧
      pt ("STEREO.RZ_" ++ tag) = some r.2.2 := by
  simp only [readRotation, bind_eq_ok, PTree.get_eq_ok, pure, Except.pure] at h
  obtain ⟨rx, hx, rz, hz, ry, hy, hr⟩ := h
  cases hr
  exact ⟨hx, hy, hz⟩

theorem readFields_ok (pt : PTree) (res : Int) (f : Fields) (h : readFields pt res = .ok f) :
    pt ("LEFT_CAM_" ++ resoStr res ++ ".cx") = some f.l_cx ∧
    pt ("LEFT_CAM_" ++ resoStr res ++ ".cy") = some f.l_cy ∧
    pt ("LEFT_CAM_" ++ resoStr res ++ ".fx") = some f.l_fx ∧
    pt ("LEFT_CAM_" ++ resoStr res ++ ".fy") = some f.l_fy ∧
    pt ("LEFT_CAM_" ++ resoStr res ++ ".k1") = some f.l_k1 ∧
    pt ("LEFT_CAM_" ++ resoStr res ++ ".k2") = some f.l_k2 ∧
    pt ("RIGHT_CAM_" ++ resoStr res ++ ".cx") = some f.r_cx ∧
    pt ("RIGHT_CAM_" ++ resoStr res ++ ".cy") = some f.r_cy ∧
    pt ("RIGHT_CAM_" ++ resoStr res ++ ".fx") = some f.r_fx ∧
    pt ("RIGHT_CAM_" ++ resoStr res ++ ".fy") = some f.r_fy ∧
    pt ("RIGHT_CAM_" ++ resoStr res ++ ".k1") = some f.r_k1 ∧
    pt ("RIGHT_CAM_" ++ resoStr res ++ ".k2") = some f.r_k2 ∧
    resolveBaseline pt = .ok f.baseline ∧
    readRotation pt (resoStr res) = .ok (f.rx, f.ry, f.rz) := by
  simp only [readFields, bind_eq_ok, PTree.get_eq_ok, pure, Except.pure] at h
  obtain ⟨a1, h1, a2, h2, a3, h3, a4, h4, a5, h5, a6, h6, b1, g1, b2, g2, b3, g3, b4, g4,
    b5, g5, b6, g6, bl, hb, r, hr, hf⟩ := h
  cases hf
  exact ⟨h1, h2, h3, h4, h5, h6, g1, g2, g3, g4, g5, g6, hb, hr⟩

/-- A successful call read the tree `read_ini` returned and filled the object
and both messages from the numbers found in it. -/
theorem getZedCameraInfo_ok (env : Env) (self : ZedCameraROS) (config_file : String)
    (resolution : Int) (left_info right_info : CameraInfo)
    (out : ZedCameraROS × CameraInfo × CameraInfo)
    (h : getZedCameraInfo env self config_file resolution left_info right_info = .ok out) :
    ∃ pt f, env.read_ini config_file = .ok pt ∧ readFields pt resolution = .ok f ∧
      out = (fillMatrices self f (env.Rodrigues (Mat.ofList 3 1 [f.rx, f.ry, f.rz])),
        fillLeftInfo self f (env.Rodrigues (Mat.ofList 3 1 [f.rx, f.ry, f.rz])) left_info,
        fillRightInfo self f (env.Rodrigues (Mat.ofList 3 1 [f.rx, f.ry, f.rz])) right_info) := by
  simp only [getZedCameraInfo, bind_eq_ok, pure, Except.pure] at h
  obtain ⟨pt, hpt, f, hf, hout⟩ := h
  exact ⟨pt, f, hpt, hf, (Except.ok.inj hout).symm⟩

theorem readFields_hdTree : readFields hdTree 2 = .ok hdFields := by
  simp [readFields, hdTree, hdFields, PTree.ofList, PTree.get, resoStr, resolveBaseline,
    readRotation, List.lookup, bind, Except.bind, pure, Except.pure, PTree.get_optional]

theorem getZedCameraInfo_hd (config_file : String) :
    getZedCameraInfo hdEnv hdSelf config_file 2 CameraInfo.default CameraInfo.default
      = .ok hdOut := by
  simp [getZedCameraInfo, hdEnv, readFields_hdTree, bind, Except.bind, pure, Except.pure, hdOut,
    hdFields]


/-! ## Claims on getZedCameraInfo -/

/-- C1: whenever `getZedCameraInfo` succeeds, the left projection matrix is
`[K_left | 0]` and the right one is `[K_right | (-fx_left * b, 0, 0)]`, with
`b` the baseline field (millimetres) times 0.001, both in the row-major `P`
arrays of the messages and in `P_l`, `P_r`; the `K` arrays and `K_l`, `K_r`
are `[fx 0 cx; 0 fy cy; 0 0 1]` of the same camera. -/
theorem projection_matrices (env : Env) (self : ZedCameraROS) (config_file : String)
    (resolution : Int) (left_info right_info : CameraInfo)
    (out : ZedCameraROS × CameraInfo × CameraInfo)
    (h : getZedCameraInfo env self config_file resolution left_info right_info = .ok out) :
    ∃ pt l_fx l_fy l_cx l_cy r_fx r_fy r_cx r_cy mm,
      env.read_ini config_file = .ok pt ∧
      pt ("LEFT_CAM_" ++ resoStr resolution ++ ".fx") = some l_fx ∧
      pt ("LEFT_CAM_" ++ resoStr resolution ++ ".fy") = some l_fy ∧
      pt ("LEFT_CAM_" ++ resoStr resolution ++ ".cx") = some l_cx ∧
      pt ("LEFT_CAM_" ++ resoStr resolution ++ ".cy") = some l_cy ∧
      pt ("RIGHT_CAM_" ++ resoStr resolution ++ ".fx") = some r_fx ∧
      pt ("RIGHT_CAM_" ++ resoStr resolution ++ ".fy") = some r_fy ∧
      pt ("RIGHT_CAM_" ++ resoStr resolution ++ ".cx") = some r_cx ∧
      pt ("RIGHT_CAM_" ++ resoStr resolution ++ ".cy") = some r_cy ∧
      (pt "STEREO.BaseLine" = some mm ∨
        (pt "STEREO.BaseLine" = none ∧ pt "STEREO.Baseline" = some mm)) ∧
      out.2.1.P = [l_fx, 0, l_cx, 0, 0, l_fy, l_cy, 0, 0, 0, 1, 0] ∧
      out.2.2.P = [r_fx, 0, r_cx, -l_fx * (mm * 0.001), 0, r_fy, r_cy, 0, 0, 0, 1, 0] ∧
      out.1.P_l = Mat.ofList 3 4 [l_fx, 0, l_cx, 0, 0, l_fy, l_cy, 0, 0, 0, 1, 0] ∧
      out.1.P_r = Mat.ofList 3 4
        [r_fx, 0, r_cx, -l_fx * (mm * 0.001), 0, r_fy, r_cy, 0, 0, 0, 1, 0] ∧
      out.2.1.K = [l_fx, 0, l_cx, 0, l_fy, l_cy, 0, 0, 1] ∧
      out.2.2.K = [r_fx, 0, r_cx, 0, r_fy, r_cy, 0, 0, 1] ∧
      out.1.K_l = Mat.ofList 3 3 [l_fx, 0, l_cx, 0, l_fy, l_cy, 0, 0, 1] ∧
      out.1.K_r = Mat.ofList 3 3 [r_fx, 0, r_cx, 0, r_fy, r_cy, 0, 0, 1] := by
  obtain ⟨pt, f, hpt, hf, rfl⟩ :=
    getZedCameraInfo_ok env self config_file resolution left_info right_info out h
  obtain ⟨h1, h2, h3, h4, -, -, g1, g2, g3, g4, -, -, hb, -⟩ := readFields_ok pt resolution f hf
  obtain ⟨mm, hmm, hbm⟩ := resolveBaseline_ok pt f.baseline hb
  refine ⟨pt, f.l_fx, f.l_fy, f.l_cx, f.l_cy, f.r_fx, f.r_fy, f.r_cx, f.r_cy, mm, hpt, h3, h4,
    h1, h2, g3, g4, g1, g2, hmm, ?_, ?_, ?_, ?_, ?_, ?_, ?_, ?_⟩
  · simp [fillLeftInfo, List.replicate]
  · simp [fillRightInfo, List.replicate, hbm]
  · simp [fillMatrices]
  · simp [fillMatrices, hbm]
  · simp [fillLeftInfo, List.replicate]
  · simp [fillRightInfo, List.replicate]
  · simp [fillMatrices]
  · simp [fillMatrices]

/-- C1 at the end-to-end scenario: `fx_left = 700` and a baseline of 120 mm
give the offset -84 in the right projection matrix. -/
theorem projection_matrices_witness :
    getZedCameraInfo hdEnv hdSelf "~/SN1267.conf" 2 CameraInfo.default CameraInfo.default
        = .ok hdOut ∧
      hdOut.2.1.P = [700, 0, 640, 0, 0, 700, 360, 0, 0, 0, 1, 0] ∧
      hdOut.2.2.P = [700, 0, 640, -84, 0, 700, 360, 0, 0, 0, 1, 0] := by
  have hcall := getZedCameraInfo_hd "~/SN1267.conf"
  obtain ⟨pt, l_fx, l_fy, l_cx, l_cy, r_fx, r_fy, r_cx, r_cy, mm, hpt, h1, h2, h3, h4, g1, g2,
    g3, g4, hmm, hl, hr, -⟩ := projection_matrices hdEnv hdSelf "~/SN1267.conf" 2
      CameraInfo.default CameraInfo.default hdOut hcall
  have hpt2 : pt = hdTree := by
    simp [hdEnv] at hpt
    exact hpt.symm
  subst hpt2
  simp [hdTree, PTree.ofList, resoStr, List.lookup] at h1 h2 h3 h4 g1 g2 g3 g4 hmm
  subst h1 h2 h3 h4 g1 g2 g3 g4 hmm
  refine ⟨hcall, hl, ?_⟩
  rw [hr]
  norm_num


/-- C2: with all per-camera fields present, the baseline is the value of
`STEREO.BaseLine` times 0.001 when that key holds a number (whatever
`STEREO.Baseline` holds), otherwise the value of `STEREO.Baseline` times
0.001; the call fails with "baseline parameter not found" exactly when
neither key is present; and a successful call puts `-fx_left` times that
baseline into the right projection matrix. -/
theorem baseline_resolution (env : Env) (self : ZedCameraROS) (config_file : String)
    (resolution : Int) (left_info right_info : CameraInfo) (pt : PTree)
    (hini : env.read_ini config_file = .ok pt)
    (hcam : perCameraFieldsPresent pt (resoStr resolution) = true) :
    (∀ v, pt "STEREO.BaseLine" = some v → resolveBaseline pt = .ok (v * 0.001)) ∧
    (∀ w, pt "STEREO.BaseLine" = none → pt "STEREO.Baseline" = some w →
      resolveBaseline pt = .ok (w * 0.001)) ∧
    (getZedCameraInfo env self config_file resolution left_info right_info
        = .error (Err.runtime_error "baseline parameter not found") ↔
      pt "STEREO.BaseLine" = none ∧ pt "STEREO.Baseline" = none) ∧
    (∀ out, getZedCameraInfo env self config_file resolution left_info right_info = .ok out →
      ∃ b, resolveBaseline pt = .ok b ∧
        out.1.P_r.elem 0 3 = -1 * out.1.K_l.elem 0 0 * b ∧
        out.2.2.P.getD 3 0 = -1 * out.2.1.K.getD 0 0 * b) := by
  refine ⟨resolveBaseline_first pt, resolveBaseline_second pt, ?_, ?_⟩
  · simp only [perCameraFieldsPresent, List.all_cons, List.all_nil, Bool.and_true,
      Bool.and_eq_true, Option.isSome_iff_exists] at hcam
    obtain ⟨⟨⟨a1, h1⟩, ⟨a2, h2⟩, ⟨a3, h3⟩, ⟨a4, h4⟩, ⟨a5, h5⟩, ⟨a6, h6⟩⟩,
      ⟨⟨b1, g1⟩, ⟨b2, g2⟩, ⟨b3, g3⟩, ⟨b4, g4⟩, ⟨b5, g5⟩, ⟨b6, g6⟩⟩⟩ := hcam
    have hread : readFields pt resolution = (do
        let baseline ← resolveBaseline pt
        let r ← readRotation pt (resoStr resolution)
        pure { l_cx := a1, l_cy := a2, l_fx := a3, l_fy := a4, l_k1 := a5, l_k2 := a6,
               r_cx := b1, r_cy := b2, r_fx := b3, r_fy := b4, r_k1 := b5, r_k2 := b6,
               baseline := baseline, rx := r.1, ry := r.2.1, rz := r.2.2 }) := by
      simp [readFields, PTree.get, h1, h2, h3, h4, h5, h6, g1, g2, g3, g4, g5, g6, bind,
        Except.bind]
    constructor
    · intro h
      cases hB : pt "STEREO.BaseLine" with
      | none =>
        cases hb : pt "STEREO.Baseline" with
        | none => exact ⟨rfl, rfl⟩
        | some w =>
          exfalso
          rw [getZedCameraInfo, hini] at h
          simp only [hread, resolveBaseline_second pt w hB hb, readRotation, PTree.get, bind,
            Except.bind, pure, Except.pure] at h
          cases hx : pt ("STEREO.RX_" ++ resoStr resolution) <;>
          cases hz : pt ("STEREO.RZ_" ++ resoStr resolution) <;>
          cases hy : pt ("STEREO.CV_" ++ resoStr resolution) <;>
          simp [hx, hy, hz] at h
      | some v =>
        exfalso
        rw [getZedCameraInfo, hini] at h
        simp only [hread, resolveBaseline_first pt v hB, readRotation, PTree.get, bind,
          Except.bind, pure, Except.pure] at h
        cases hx : pt ("STEREO.RX_" ++ resoStr resolution) <;>
        cases hz : pt ("STEREO.RZ_" ++ resoStr resolution) <;>
        cases hy : pt ("STEREO.CV_" ++ resoStr resolution) <;>
        simp [hx, hy, hz] at h
    · rintro ⟨hB, hb⟩
      rw [getZedCameraInfo, hini]
      simp [hread, resolveBaseline_neither pt hB hb, bind, Except.bind]
  · intro out h
    obtain ⟨pt2, f, hpt, hf, rfl⟩ :=
      getZedCameraInfo_ok env self config_file resolution left_info right_info out h
    have hpt2 : pt2 = pt := Except.ok.inj (hpt.symm.trans hini)
    subst hpt2
    refine ⟨f.baseline, (readFields_ok _ resolution f hf).2.2.2.2.2.2.2.2.2.2.2.2.1, ?_, ?_⟩
    · simp [fillMatrices, Mat.ofList]
    · simp [fillRightInfo, fillLeftInfo, List.replicate]

/-- C2 at the calibration of the end-to-end scenario, which has the key
`STEREO.BaseLine` only. -/
theorem baseline_resolution_witness :
    hdEnv.read_ini "~/SN1267.conf" = .ok hdTree ∧
      perCameraFieldsPresent hdTree (resoStr 2) = true ∧
      resolveBaseline hdTree = .ok (120 * 0.001) := by
  have hcam : perCameraFieldsPresent hdTree (resoStr 2) = true := by
    simp [perCameraFieldsPresent, hdTree, PTree.ofList, resoStr, List.lookup]
  refine ⟨rfl, hcam, ?_⟩
  exact (baseline_resolution hdEnv hdSelf "~/SN1267.conf" 2 CameraInfo.default
    CameraInfo.default hdTree rfl hcam).1 120 (by simp [hdTree, PTree.ofList, List.lookup])


theorem key_ne_of_head_ne (a b tag : String) (h : a.data ≠ b.data)
    (hlen : a.data.length = b.data.length) : a ++ tag ≠ b ++ tag := by
  intro heq
  apply h
  have h2 : (a ++ tag).data = (b ++ tag).data := by rw [heq]
  simp only [String.data_append] at h2
  exact List.append_inj_left h2 hlen

theorem readRotation_of_some (pt : PTree) (tag : String) (rx ry rz : ℚ)
    (hx : pt ("STEREO.RX_" ++ tag) = some rx) (hy : pt ("STEREO.CV_" ++ tag) = some ry)
    (hz : pt ("STEREO.RZ_" ++ tag) = some rz) : readRotation pt tag = .ok (rx, ry, rz) := by
  simp [readRotation, PTree.get, hx, hy, hz, bind, Except.bind, pure, Except.pure]

/-- C7, as the code has it: the rotation vector handed to `cv::Rodrigues` is
`(rx, ry, rz)` with `rx` the value of `STEREO.RX_T`, `ry` the value of
`STEREO.CV_T` and `rz` the value of `STEREO.RZ_T`; a tree that agrees with the
calibration on these three keys gives the same vector, and changing the value
of `CV_T` alone changes the vector. -/
theorem rotation_vector_fields (env : Env) (self : ZedCameraROS) (config_file : String)
    (resolution : Int) (left_info right_info : CameraInfo) (pt : PTree)
    (out : ZedCameraROS × CameraInfo × CameraInfo)
    (hini : env.read_ini config_file = .ok pt)
    (h : getZedCameraInfo env self config_file resolution left_info right_info = .ok out) :
    ∃ rx ry rz,
      pt ("STEREO.RX_" ++ resoStr resolution) = some rx ∧
      pt ("STEREO.CV_" ++ resoStr resolution) = some ry ∧
      pt ("STEREO.RZ_" ++ resoStr resolution) = some rz ∧
      readRotation pt (resoStr resolution) = .ok (rx, ry, rz) ∧
      out.1.R_l = env.Rodrigues (Mat.ofList 3 1 [rx, ry, rz]) ∧
      (∀ pt2 : PTree,
        pt2 ("STEREO.RX_" ++ resoStr resolution) = pt ("STEREO.RX_" ++ resoStr resolution) →
        pt2 ("STEREO.CV_" ++ resoStr resolution) = pt ("STEREO.CV_" ++ resoStr resolution) →
        pt2 ("STEREO.RZ_" ++ resoStr resolution) = pt ("STEREO.RZ_" ++ resoStr resolution) →
        readRotation pt2 (resoStr resolution) = .ok (rx, ry, rz)) ∧
      (∀ ry2, ry2 ≠ ry →
        readRotation (pt.put ("STEREO.CV_" ++ resoStr resolution) ry2) (resoStr resolution)
            = .ok (rx, ry2, rz) ∧
          (rx, ry2, rz) ≠ (rx, ry, rz)) := by
  obtain ⟨pt2, f, hpt, hf, rfl⟩ :=
    getZedCameraInfo_ok env self config_file resolution left_info right_info out h
  have hpt2 : pt2 = pt := Except.ok.inj (hpt.symm.trans hini)
  subst hpt2
  have hr := (readFields_ok _ resolution f hf).2.2.2.2.2.2.2.2.2.2.2.2.2
  obtain ⟨hx, hy, hz⟩ := readRotation_ok _ _ _ hr
  refine ⟨f.rx, f.ry, f.rz, hx, hy, hz, hr, ?_, ?_, ?_⟩
  · simp [fillMatrices]
  · intro pt3 e1 e2 e3
    exact readRotation_of_some pt3 _ _ _ _ (e1.trans hx) (e2.trans hy) (e3.trans hz)
  · intro ry2 hne
    refine ⟨readRotation_of_some _ _ _ _ _ ?_ ?_ ?_, ?_⟩
    · have hk : "STEREO.RX_" ++ resoStr resolution ≠ "STEREO.CV_" ++ resoStr resolution :=
        key_ne_of_head_ne _ _ _ (by decide) (by decide)
      simpa [PTree.put, hk] using hx
    · simp [PTree.put]
    · have hk : "STEREO.RZ_" ++ resoStr resolution ≠ "STEREO.CV_" ++ resoStr resolution :=
        key_ne_of_head_ne _ _ _ (by decide) (by decide)
      simpa [PTree.put, hk] using hz
    · intro heq
      exact hne (congrArg (fun t => t.2.1) heq)

/-- C7 as amended, at the calibration of the end-to-end scenario. -/
theorem rotation_vector_fields_witness :
    hdEnv.read_ini "~/SN1267.conf" = .ok hdTree ∧
      getZedCameraInfo hdEnv hdSelf "~/SN1267.conf" 2 CameraInfo.default CameraInfo.default
        = .ok hdOut ∧
      ∃ rx ry rz, readRotation hdTree (resoStr 2) = .ok (rx, ry, rz) ∧
        hdOut.1.R_l = hdEnv.Rodrigues (Mat.ofList 3 1 [rx, ry, rz]) := by
  obtain ⟨rx, ry, rz, -, -, -, hr, hR, -⟩ := rotation_vector_fields hdEnv hdSelf "~/SN1267.conf" 2
    CameraInfo.default CameraInfo.default hdTree hdOut rfl (getZedCameraInfo_hd _)
  exact ⟨rfl, getZedCameraInfo_hd _, rx, ry, rz, hr, hR⟩

/-- C7 as stated fails: two calibrations that differ only in the value of
`STEREO.RY_HD` (1 and 2) give the same rotation vector `(0, 0, 0)`, whose
second component is the value of `STEREO.CV_HD`, not that of `STEREO.RY_HD`;
and changing `STEREO.CV_HD`, another stereo-wide field, changes the vector. -/
theorem rotation_vector_ignores_RY :
    (hdTree.put "STEREO.RY_HD" 1) "STEREO.RY_HD" = some 1 ∧
      (hdTree.put "STEREO.RY_HD" 2) "STEREO.RY_HD" = some 2 ∧
      readRotation (hdTree.put "STEREO.RY_HD" 1) (resoStr 2) = .ok (0, 0, 0) ∧
      readRotation (hdTree.put "STEREO.RY_HD" 2) (resoStr 2) = .ok (0, 0, 0) ∧
      readRotation (hdTree.put "STEREO.CV_HD" 5) (resoStr 2) = .ok (0, 5, 0) := by
  simp [PTree.put, hdTree, PTree.ofList, List.lookup, readRotation, PTree.get, resoStr, bind,
    Except.bind, pure, Except.pure]

/-- C9: whenever `getZedCameraInfo` succeeds and `cv::Rodrigues` returns a
3×3 matrix for a 3×1 vector, `R_l` and `R_r` are that one matrix, obtained from
a single rotation vector, and the `R` arrays of both messages are equal to its
nine entries in row-major order. -/
theorem shared_rotation (env : Env) (self : ZedCameraROS) (config_file : String)
    (resolution : Int) (left_info right_info : CameraInfo)
    (out : ZedCameraROS × CameraInfo × CameraInfo)
    (hR : ∀ v : Mat, v.rows = 3 → v.cols = 1 →
      (env.Rodrigues v).rows = 3 ∧ (env.Rodrigues v).cols = 3)
    (h : getZedCameraInfo env self config_file resolution left_info right_info = .ok out) :
    out.1.R_l = out.1.R_r ∧
      (∃ rvec : Mat, rvec.rows = 3 ∧ rvec.cols = 1 ∧ out.1.R_l = env.Rodrigues rvec) ∧
      out.2.1.R = out.2.2.R ∧
      out.2.1.R =
        [out.1.R_l.elem 0 0, out.1.R_l.elem 0 1, out.1.R_l.elem 0 2,
         out.1.R_l.elem 1 0, out.1.R_l.elem 1 1, out.1.R_l.elem 1 2,
         out.1.R_l.elem 2 0, out.1.R_l.elem 2 1, out.1.R_l.elem 2 2] := by
  obtain ⟨pt, f, -, -, rfl⟩ :=
    getZedCameraInfo_ok env self config_file resolution left_info right_info out h
  obtain ⟨hrows, hcols⟩ := hR (Mat.ofList 3 1 [f.rx, f.ry, f.rz]) rfl rfl
  have hlist : (env.Rodrigues (Mat.ofList 3 1 [f.rx, f.ry, f.rz])).toList =
      [(env.Rodrigues (Mat.ofList 3 1 [f.rx, f.ry, f.rz])).elem 0 0,
       (env.Rodrigues (Mat.ofList 3 1 [f.rx, f.ry, f.rz])).elem 0 1,
       (env.Rodrigues (Mat.ofList 3 1 [f.rx, f.ry, f.rz])).elem 0 2,
       (env.Rodrigues (Mat.ofList 3 1 [f.rx, f.ry, f.rz])).elem 1 0,
       (env.Rodrigues (Mat.ofList 3 1 [f.rx, f.ry, f.rz])).elem 1 1,
       (env.Rodrigues (Mat.ofList 3 1 [f.rx, f.ry, f.rz])).elem 1 2,
       (env.Rodrigues (Mat.ofList 3 1 [f.rx, f.ry, f.rz])).elem 2 0,
       (env.Rodrigues (Mat.ofList 3 1 [f.rx, f.ry, f.rz])).elem 2 1,
       (env.Rodrigues (Mat.ofList 3 1 [f.rx, f.ry, f.rz])).elem 2 2] := by
    simp [Mat.toList, hrows, hcols, List.range, List.range.loop]
  refine ⟨rfl, ⟨_, rfl, rfl, rfl⟩, ?_, ?_⟩
  · simp [fillLeftInfo, fillRightInfo, hlist, copyRotation, List.replicate]
  · simp [fillLeftInfo, fillMatrices, hlist, copyRotation, List.replicate]

/-- C9 at the end-to-end scenario: both cameras get the identity matrix. -/
theorem shared_rotation_witness :
    getZedCameraInfo hdEnv hdSelf "~/SN1267.conf" 2 CameraInfo.default CameraInfo.default
        = .ok hdOut ∧
      hdOut.2.1.R = [1, 0, 0, 0, 1, 0, 0, 0, 1] ∧ hdOut.2.2.R = [1, 0, 0, 0, 1, 0, 0, 0, 1] := by
  obtain ⟨-, -, hlr, hl⟩ := shared_rotation hdEnv hdSelf "~/SN1267.conf" 2 CameraInfo.default
    CameraInfo.default hdOut (fun _ _ _ => ⟨rfl, rfl⟩) (getZedCameraInfo_hd _)
  have hl2 : hdOut.2.1.R = [1, 0, 0, 0, 1, 0, 0, 0, 1] := by
    rw [hl]
    simp [hdOut, fillMatrices, eye3, Mat.ofList]
  exact ⟨getZedCameraInfo_hd _, hl2, hlr ▸ hl2⟩

/-- C10 fails on the code: for the HD capture size 2560 × 720 and members
`width_ = height_ = 0`, the call succeeds and both messages end with width 0
and height 0, because lines 417 and 418 overwrite the values lines 322 to 326
took from `WIDTH` and `HEIGHT`. -/
theorem camera_info_size_overwritten :
    getZedCameraInfo hdEnv hdSelf "~/SN1267.conf" 2 CameraInfo.default CameraInfo.default
        = .ok hdOut ∧
      intToUInt32 hdSelf.WIDTH = 2560 ∧ intToUInt32 hdSelf.HEIGHT = 720 ∧
      hdOut.2.1.width = 0 ∧ hdOut.2.1.height = 0 ∧
      hdOut.2.2.width = 0 ∧ hdOut.2.2.height = 0 := by
  refine ⟨getZedCameraInfo_hd _, by decide, by decide, ?_, ?_, ?_, ?_⟩ <;>
    simp [hdOut, fillLeftInfo, fillRightInfo, hdSelf, doubleToUInt32]


/-! ## Claims on the resolution selector -/

/-- C6, as the code has it: selectors 0, 1, 2, 3 ask the device for
4416 × 1242, 3840 × 1080, 2560 × 720, 1344 × 376 and choose the tags 2K, FHD,
HD, VGA; for any other selector nothing is raised, the size asked for is
whatever `width_` and `height_` held, and the profile tag is empty. In every
case `setResolution` stores what the device reports for the size asked. -/
theorem resolution_selector (type : Int) (camera_ : VideoCapture) (zed : StereoCamera) :
    (type = 0 → requestedSize type zed.width_ zed.height_ = (4416, 1242) ∧ resoStr type = "2K") ∧
    (type = 1 → requestedSize type zed.width_ zed.height_ = (3840, 1080) ∧
      resoStr type = "FHD") ∧
    (type = 2 → requestedSize type zed.width_ zed.height_ = (2560, 720) ∧ resoStr type = "HD") ∧
    (type = 3 → requestedSize type zed.width_ zed.height_ = (1344, 376) ∧ resoStr type = "VGA") ∧
    (type ≠ 0 → type ≠ 1 → type ≠ 2 → type ≠ 3 →
      requestedSize type zed.width_ zed.height_ = (zed.width_, zed.height_) ∧
        resoStr type = "") ∧
    (zed.setResolution camera_ type).width_ =
      doubleToInt (camera_ (requestedSize type zed.width_ zed.height_).1
        (requestedSize type zed.width_ zed.height_).2 WIDTH_ID) ∧
    (zed.setResolution camera_ type).height_ =
      doubleToInt (camera_ (requestedSize type zed.width_ zed.height_).1
        (requestedSize type zed.width_ zed.height_).2 HEIGHT_ID) := by
  refine ⟨?_, ?_, ?_, ?_, ?_, rfl, rfl⟩
  · rintro rfl
    simp [requestedSize, resoStr]
  · rintro rfl
    simp [requestedSize, resoStr]
  · rintro rfl
    simp [requestedSize, resoStr]
  · rintro rfl
    simp [requestedSize, resoStr]
  · intro h0 h1 h2 h3
    simp [requestedSize, resoStr, h0, h1, h2, h3]

/-- C6 as stated fails at selector 7: the size asked for stays what the members
held (11 × 13 here), the profile tag is empty, and reading goes on with the
untagged keys: it fails on a missing path for the HD calibration and succeeds
on a calibration that has the untagged keys. -/
theorem unknown_selector_not_rejected :
    requestedSize 7 11 13 = (11, 13) ∧ resoStr 7 = "" ∧
      readFields hdTree 7 = .error (Err.ptree_bad_path "LEFT_CAM_.cx") ∧
      readFields untaggedTree 7 = .ok hdFields := by
  refine ⟨by simp [requestedSize], by simp [resoStr], ?_, ?_⟩
  · simp [readFields, hdTree, PTree.ofList, PTree.get, resoStr, List.lookup, bind, Except.bind]
  · simp [readFields, untaggedTree, hdFields, PTree.ofList, PTree.get, resoStr, resolveBaseline,
      readRotation, List.lookup, bind, Except.bind, pure, Except.pure, PTree.get_optional]

/-! ## Claims on getUndistortedMaps -/

/-- C3, as the code has it: when one of the eight matrices is empty or `WIDTH`
or `HEIGHT` is 0, `getUndistortedMaps` returns normally, leaves the object
(and so the four maps) as it was, and writes its message to `std::cerr`. -/
theorem missing_parameters_silent_return (self : ZedCameraROS)
    (h : self.K_l.empty = true ∨ self.K_r.empty = true ∨ self.P_l.empty = true ∨
      self.P_r.empty = true ∨ self.R_l.empty = true ∨ self.R_r.empty = true ∨
      self.D_l.empty = true ∨ self.D_r.empty = true ∨ self.WIDTH = 0 ∨ self.HEIGHT = 0) :
    getUndistortedMaps self =
      .ok (self, ["ERROR: Calibration parameters to rectify stereo are missing!", "/n"]) := by
  have hg : parametersMissing self = true := by
    simp only [parametersMissing, Bool.or_eq_true, beq_iff_eq]
    tauto
  simp [getUndistortedMaps, hg, pure, Except.pure]

/-- C3 as amended, on the driver object before any calibration is loaded. -/
theorem missing_parameters_silent_return_witness :
    hdSelf.K_l.empty = true ∧
      getUndistortedMaps hdSelf =
        .ok (hdSelf, ["ERROR: Calibration parameters to rectify stereo are missing!", "/n"]) :=
  ⟨rfl, missing_parameters_silent_return hdSelf (Or.inl rfl)⟩

/-- C3 as stated fails: with all eight matrices unset the call does not end in
an error, it returns to its caller. -/
theorem missing_parameters_no_error :
    hdSelf.K_l.empty = true ∧ hdSelf.D_r.empty = true ∧
      (getUndistortedMaps hdSelf).toBool = true ∧
      (getUndistortedMaps hdSelf).toOption.map (fun r => r.2) =
        some ["ERROR: Calibration parameters to rectify stereo are missing!", "/n"] := by
  simp [getUndistortedMaps, parametersMissing, hdSelf, Mat.empty, Mat.nil, pure, Except.pure,
    Except.toBool, Except.toOption]


/-- With zero distortion, identity rotation and the rectified camera matrix
`[fx 0 cx; 0 fy cy; 0 0 1]` built from the intrinsics of `K`, pixel `(u, v)`
maps to itself. -/
theorem undistortRectifyPoint_identity (K D R newK : Mat) (u v : ℚ)
    (hfx : K.elem 0 0 ≠ 0) (hfy : K.elem 1 1 ≠ 0)
    (hD : D.elem 0 0 = 0 ∧ D.elem 0 1 = 0 ∧ D.elem 0 2 = 0 ∧ D.elem 0 3 = 0 ∧ D.elem 0 4 = 0)
    (hR : ∀ i j, i < 3 → j < 3 → R.elem i j = if i = j then 1 else 0)
    (hN : newK.elem 0 0 = K.elem 0 0 ∧ newK.elem 0 1 = 0 ∧ newK.elem 0 2 = K.elem 0 2 ∧
      newK.elem 1 0 = 0 ∧ newK.elem 1 1 = K.elem 1 1 ∧ newK.elem 1 2 = K.elem 1 2 ∧
      newK.elem 2 0 = 0 ∧ newK.elem 2 1 = 0 ∧ newK.elem 2 2 = 1) :
    undistortRectifyPoint K D R newK u v = (u, v) := by
  obtain ⟨d0, d1, d2, d3, d4⟩ := hD
  obtain ⟨n00, n01, n02, n10, n11, n12, n20, n21, n22⟩ := hN
  have r00 := hR 0 0 (by decide) (by decide)
  have r01 := hR 0 1 (by decide) (by decide)
  have r02 := hR 0 2 (by decide) (by decide)
  have r10 := hR 1 0 (by decide) (by decide)
  have r11 := hR 1 1 (by decide) (by decide)
  have r12 := hR 1 2 (by decide) (by decide)
  have r20 := hR 2 0 (by decide) (by decide)
  have r21 := hR 2 1 (by decide) (by decide)
  have r22 := hR 2 2 (by decide) (by decide)
  simp only [if_true, if_false, Nat.reduceEqDiff, OfNat.zero_ne_ofNat, OfNat.ofNat_ne_zero,
    one_ne_zero, zero_ne_one] at r00 r01 r02 r10 r11 r12 r20 r21 r22
  simp only [undistortRectifyPoint, mulVec3, inv3, Mat.ofList, d0, d1, d2, d3, d4, n00, n01, n02,
    n10, n11, n12, n20, n21, n22, r00, r01, r02, r10, r11, r12, r20, r21, r22]
  simp
  constructor <;> field_simp <;> ring


theorem Mat.ofList_rows (r c : Nat) (l : List ℚ) : (Mat.ofList r c l).rows = r := rfl

theorem Mat.ofList_cols (r c : Nat) (l : List ℚ) : (Mat.ofList r c l).cols = c := rfl

theorem getUndistortedMaps_present (self : ZedCameraROS) (h : parametersMissing self = false) :
    getUndistortedMaps self = .ok
      ({ self with
          M1l := (initUndistortRectifyMap self.K_l self.D_l self.R_l
            ((self.P_l.rowRange 0 3).colRange 0 3) (Int.tdiv self.WIDTH 2) self.HEIGHT).1
          M2l := (initUndistortRectifyMap self.K_l self.D_l self.R_l
            ((self.P_l.rowRange 0 3).colRange 0 3) (Int.tdiv self.WIDTH 2) self.HEIGHT).2
          M1r := (initUndistortRectifyMap self.K_r self.D_r self.R_r
            ((self.P_r.rowRange 0 3).colRange 0 3) (Int.tdiv self.WIDTH 2) self.HEIGHT).1
          M2r := (initUndistortRectifyMap self.K_r self.D_r self.R_r
            ((self.P_r.rowRange 0 3).colRange 0 3) (Int.tdiv self.WIDTH 2) self.HEIGHT).2 },
        []) := by
  simp [getUndistortedMaps, h, pure, Except.pure]

theorem width_ne_zero_of_pixel (W : Int) (u : Nat) (h : (u : Int) < Int.tdiv W 2) : W ≠ 0 := by
  rintro rfl
  simp at h
  omega

theorem height_ne_zero_of_pixel (H : Int) (v : Nat) (h : (v : Int) < H) : H ≠ 0 := by
  rintro rfl
  omega

/-- C5: after a successful `getZedCameraInfo` whose rotation matrix is the
3×3 identity, for a camera (left or right) whose `fx`, `fy` are nonzero and
whose `k1`, `k2` are zero, the maps `getUndistortedMaps` generates have
`HEIGHT` rows and `WIDTH / 2` columns and send every pixel `(u, v)` with
`u < WIDTH / 2` and `v < HEIGHT` to itself: `mapX[v][u] = u`, `mapY[v][u] = v`. -/
theorem identity_rectification_map (env : Env) (self : ZedCameraROS) (config_file : String)
    (resolution : Int) (left_info right_info : CameraInfo) (pt : PTree)
    (got : ZedCameraROS × CameraInfo × CameraInfo) (maps : ZedCameraROS × List String)
    (right : Bool) (fx fy : ℚ) (u v : Nat)
    (hini : env.read_ini config_file = .ok pt)
    (hgot : getZedCameraInfo env self config_file resolution left_info right_info = .ok got)
    (hmaps : getUndistortedMaps got.1 = .ok maps)
    (hfx : pt ((if right then "RIGHT_CAM_" else "LEFT_CAM_") ++ resoStr resolution ++ ".fx")
      = some fx)
    (hfy : pt ((if right then "RIGHT_CAM_" else "LEFT_CAM_") ++ resoStr resolution ++ ".fy")
      = some fy)
    (hfx0 : fx ≠ 0) (hfy0 : fy ≠ 0)
    (hk1 : pt ((if right then "RIGHT_CAM_" else "LEFT_CAM_") ++ resoStr resolution ++ ".k1")
      = some 0)
    (hk2 : pt ((if right then "RIGHT_CAM_" else "LEFT_CAM_") ++ resoStr resolution ++ ".k2")
      = some 0)
    (hshape : got.1.R_l.rows = 3 ∧ got.1.R_l.cols = 3)
    (hident : ∀ i j, i < 3 → j < 3 → got.1.R_l.elem i j = if i = j then 1 else 0)
    (hu : (u : Int) < Int.tdiv self.WIDTH 2) (hv : (v : Int) < self.HEIGHT) :
    (if right then maps.1.M1r else maps.1.M1l).rows = self.HEIGHT.toNat ∧
      (if right then maps.1.M1r else maps.1.M1l).cols = (Int.tdiv self.WIDTH 2).toNat ∧
      (if right then maps.1.M2r else maps.1.M2l).rows = self.HEIGHT.toNat ∧
      (if right then maps.1.M2r else maps.1.M2l).cols = (Int.tdiv self.WIDTH 2).toNat ∧
      (if right then maps.1.M1r else maps.1.M1l).elem v u = u ∧
      (if right then maps.1.M2r else maps.1.M2l).elem v u = v := by
  obtain ⟨pt2, f, hpt, hf, rfl⟩ :=
    getZedCameraInfo_ok env self config_file resolution left_info right_info got hgot
  have hpt2 : pt2 = pt := Except.ok.inj (hpt.symm.trans hini)
  subst hpt2
  obtain ⟨-, -, h3, h4, h5, h6, -, -, g3, g4, g5, g6, -, -⟩ := readFields_ok _ resolution f hf
  have hW := width_ne_zero_of_pixel self.WIDTH u hu
  have hH := height_ne_zero_of_pixel self.HEIGHT v hv
  obtain ⟨hrows, hcols⟩ := hshape
  have hrows2 : (env.Rodrigues (Mat.ofList 3 1 [f.rx, f.ry, f.rz])).rows = 3 := hrows
  have hcols2 : (env.Rodrigues (Mat.ofList 3 1 [f.rx, f.ry, f.rz])).cols = 3 := hcols
  have hguard : parametersMissing
      (fillMatrices self f (env.Rodrigues (Mat.ofList 3 1 [f.rx, f.ry, f.rz]))) = false := by
    simp [parametersMissing, fillMatrices, Mat.empty, Mat.ofList_rows, Mat.ofList_cols, hrows2,
      hcols2, hW, hH]
  rw [getUndistortedMaps_present _ hguard] at hmaps
  have hm := (Except.ok.inj hmaps).symm
  subst hm
  have hident2 : ∀ i j, i < 3 → j < 3 →
      (env.Rodrigues (Mat.ofList 3 1 [f.rx, f.ry, f.rz])).elem i j = if i = j then 1 else 0 :=
    hident
  cases right with
  | false =>
    simp only [Bool.false_eq_true, if_false] at hfx hfy hk1 hk2 ⊢
    have e1 : f.l_fx = fx := Option.some.inj (h3.symm.trans hfx)
    have e2 : f.l_fy = fy := Option.some.inj (h4.symm.trans hfy)
    have e3 : f.l_k1 = 0 := Option.some.inj (h5.symm.trans hk1)
    have e4 : f.l_k2 = 0 := Option.some.inj (h6.symm.trans hk2)
    have hp := undistortRectifyPoint_identity
      (Mat.ofList 3 3 [f.l_fx, 0, f.l_cx, 0, f.l_fy, f.l_cy, 0, 0, 1])
      (Mat.ofList 1 5 [f.l_k1, f.l_k2, 0, 0, 0])
      (env.Rodrigues (Mat.ofList 3 1 [f.rx, f.ry, f.rz]))
      (((Mat.ofList 3 4 [f.l_fx, 0, f.l_cx, 0, 0, f.l_fy, f.l_cy, 0, 0, 0, 1, 0]).rowRange 0
        3).colRange 0 3) u v
      (by simpa [Mat.ofList, e1] using hfx0) (by simpa [Mat.ofList, e2] using hfy0)
      (by simp [Mat.ofList, e3, e4]) hident2
      (by simp [Mat.ofList, Mat.rowRange, Mat.colRange])
    simp only [fillMatrices, initUndistortRectifyMap, hp]
    simp
  | true =>
    simp only [if_true] at hfx hfy hk1 hk2 ⊢
    have e1 : f.r_fx = fx := Option.some.inj (g3.symm.trans hfx)
    have e2 : f.r_fy = fy := Option.some.inj (g4.symm.trans hfy)
    have e3 : f.r_k1 = 0 := Option.some.inj (g5.symm.trans hk1)
    have e4 : f.r_k2 = 0 := Option.some.inj (g6.symm.trans hk2)
    have hp := undistortRectifyPoint_identity
      (Mat.ofList 3 3 [f.r_fx, 0, f.r_cx, 0, f.r_fy, f.r_cy, 0, 0, 1])
      (Mat.ofList 1 5 [f.r_k1, f.r_k2, 0, 0, 0])
      (env.Rodrigues (Mat.ofList 3 1 [f.rx, f.ry, f.rz]))
      (((Mat.ofList 3 4 [f.r_fx, 0, f.r_cx, -1 * f.l_fx * f.baseline, 0, f.r_fy, f.r_cy, 0, 0,
        0, 1, 0]).rowRange 0 3).colRange 0 3) u v
      (by simpa [Mat.ofList, e1] using hfx0) (by simpa [Mat.ofList, e2] using hfy0)
      (by simp [Mat.ofList, e3, e4]) hident2
      (by simp [Mat.ofList, Mat.rowRange, Mat.colRange])
    simp only [fillMatrices, initUndistortRectifyMap, hp]
    simp

/-- C5 at the end-to-end scenario: HD profile, `fx = fy = 700`, `cx = 640`,
`cy = 360`, `k1 = k2 = 0`, rotation vector zero; the last pixel (1279, 719) of
the left map is sent to itself. -/
theorem identity_rectification_map_witness :
    getZedCameraInfo hdEnv hdSelf "~/SN1267.conf" 2 CameraInfo.default CameraInfo.default
        = .ok hdOut ∧
      getUndistortedMaps hdOut.1 = .ok (hdReady, []) ∧
      hdReady.M1l.rows = 720 ∧ hdReady.M1l.cols = 1280 ∧
      hdReady.M1l.elem 719 1279 = 1279 ∧ hdReady.M2l.elem 719 1279 = 719 := by
  have hguard : parametersMissing hdOut.1 = false := by
    simp [parametersMissing, hdOut, fillMatrices, Mat.empty, Mat.ofList, eye3, hdSelf]
  have hmaps : getUndistortedMaps hdOut.1 = .ok (hdReady, []) := by
    simp [hdReady, getUndistortedMaps_present _ hguard]
  obtain ⟨h1, h2, -, -, h5, h6⟩ := identity_rectification_map hdEnv hdSelf "~/SN1267.conf" 2
    CameraInfo.default CameraInfo.default hdTree hdOut (hdReady, []) false 700 700 1279 719 rfl
    (getZedCameraInfo_hd _) hmaps
    (by simp [hdTree, PTree.ofList, resoStr, List.lookup])
    (by simp [hdTree, PTree.ofList, resoStr, List.lookup])
    (by norm_num) (by norm_num)
    (by simp [hdTree, PTree.ofList, resoStr, List.lookup])
    (by simp [hdTree, PTree.ofList, resoStr, List.lookup])
    ⟨rfl, rfl⟩
    (by
      intro i j hi hj
      interval_cases i <;> interval_cases j <;>
        simp [hdOut, fillMatrices, eye3, Mat.ofList])
    (by decide) (by decide)
  exact ⟨getZedCameraInfo_hd _, hmaps, h1, h2, h5, h6⟩


/-! ## Claims on the constructor and its frame loop -/

/-- C4 fails on the code. With `load_zed_config` false (and `rectify_image` at
its default, true) no map is ever generated, yet the first pass of the frame
loop runs and calls `cv::remap` with the empty `M1l`, `M2l`, `M1r`, `M2r`. The
same happens with `load_zed_config` true when the device could not be opened
and reports a width of 0: `getUndistortedMaps` takes its missing-parameter
branch, and the loop runs. -/
theorem frame_loop_entered_without_maps :
    (ZedCameraROS.new hdEnv honestCamera { noParams with load_zed_config := some false }
        hdSelf zedMem [quietTick (some 0)]).toOption.map (fun r => r.2)
      = some [Event.getImages true,
          Event.hconcat (Image.roi 0 0 0 1920 1080) (Image.roi 0 1920 0 1920 1080),
          Event.remap (Image.roi 0 0 0 1920 1080) Mat.nil Mat.nil,
          Event.remap (Image.roi 0 1920 0 1920 1080) Mat.nil Mat.nil,
          Event.hconcat (Image.remap (Image.roi 0 0 0 1920 1080) Mat.nil Mat.nil)
            (Image.remap (Image.roi 0 1920 0 1920 1080) Mat.nil Mat.nil)] ∧
    (ZedCameraROS.new hdEnv closedCamera { noParams with resolution := some 2 }
        hdSelf zedMem [quietTick none]).toOption.map (fun r => r.2)
      = some [Event.cerr "ERROR: Calibration parameters to rectify stereo are missing!",
          Event.cerr "/n", Event.getImages false,
          Event.hconcat Image.empty Image.empty,
          Event.remap Image.empty Mat.nil Mat.nil,
          Event.remap Image.empty Mat.nil Mat.nil,
          Event.hconcat (Image.remap Image.empty Mat.nil Mat.nil)
            (Image.remap Image.empty Mat.nil Mat.nil)] ∧
    Mat.nil.empty = true := by
  refine ⟨?_, ?_, rfl⟩
  · simp [ZedCameraROS.new, loadCalibration, noParams, StereoCamera.new,
      StereoCamera.setResolution, requestedSize, honestCamera, WIDTH_ID, HEIGHT_ID, doubleToInt,
      frameLoop, frameLoopBody, StereoCamera.getImages, quietTick, publishIfSubscribed,
      publishCamInfoIfSubscribed, bind, Except.bind, pure, Except.pure, Except.toOption]
    rfl
  · simp [ZedCameraROS.new, loadCalibration, noParams, StereoCamera.new,
      StereoCamera.setResolution, requestedSize, closedCamera, doubleToInt, getZedCameraInfo,
      hdEnv, readFields_hdTree, getUndistortedMaps, parametersMissing, fillMatrices,
      frameLoop, frameLoopBody, StereoCamera.getImages, quietTick, publishIfSubscribed,
      publishCamInfoIfSubscribed, bind, Except.bind, pure, Except.pure, Except.toOption]


theorem hdReady_eq :
    hdReady = { hdOut.1 with
      M1l := (initUndistortRectifyMap hdOut.1.K_l hdOut.1.D_l hdOut.1.R_l
        ((hdOut.1.P_l.rowRange 0 3).colRange 0 3) (Int.tdiv hdOut.1.WIDTH 2) hdOut.1.HEIGHT).1
      M2l := (initUndistortRectifyMap hdOut.1.K_l hdOut.1.D_l hdOut.1.R_l
        ((hdOut.1.P_l.rowRange 0 3).colRange 0 3) (Int.tdiv hdOut.1.WIDTH 2) hdOut.1.HEIGHT).2
      M1r := (initUndistortRectifyMap hdOut.1.K_r hdOut.1.D_r hdOut.1.R_r
        ((hdOut.1.P_r.rowRange 0 3).colRange 0 3) (Int.tdiv hdOut.1.WIDTH 2) hdOut.1.HEIGHT).1
      M2r := (initUndistortRectifyMap hdOut.1.K_r hdOut.1.D_r hdOut.1.R_r
        ((hdOut.1.P_r.rowRange 0 3).colRange 0 3) (Int.tdiv hdOut.1.WIDTH 2) hdOut.1.HEIGHT).2 } := by
  have hguard : parametersMissing hdOut.1 = false := by
    simp [parametersMissing, hdOut, fillMatrices, Mat.empty, Mat.ofList, eye3, hdSelf]
  simp [hdReady, getUndistortedMaps_present _ hguard]

/-- C8, as the code has it: in a pass in which `getImages` returns false the
two image buffers keep what they held before the pass; when `rectify_image_`
is set they are remapped all the same, and the results are published on the
rectified topics that have a subscriber; the loop goes on with the next pass,
and the driver object the constructor returns does not depend on the passes
of the loop. -/
theorem failed_grab_pass (env : Env) (camera_ : VideoCapture) (params : RosParams)
    (mem : ZedCameraROS) (zedMem : StereoCamera) (ticks : List Tick)
    (self : ZedCameraROS) (zed : StereoCamera) (left_info right_info : CameraInfo)
    (t : Tick) (rest : List Tick) (left_image right_image : Image) (hgrab : t.grab = none) :
    (zed.getImages t.grab left_image right_image).1 = false ∧
    (frameLoopBody self zed left_info right_info t left_image right_image).2
      = (left_image, right_image) ∧
    (self.rectify_image_ = true →
      Event.remap left_image self.M1l self.M2l ∈
        (frameLoopBody self zed left_info right_info t left_image right_image).1 ∧
      Event.remap right_image self.M1r self.M2r ∈
        (frameLoopBody self zed left_info right_info t left_image right_image).1 ∧
      (0 < t.getNumSubscribers "left/image_rectified" →
        Event.publishImage "left/image_rectified" "rec_left_frame"
            (Image.remap left_image self.M1l self.M2l) ∈
          (frameLoopBody self zed left_info right_info t left_image right_image).1) ∧
      (0 < t.getNumSubscribers "right/image_rectified" →
        Event.publishImage "right/image_rectified" "rec_right_frame"
            (Image.remap right_image self.M1r self.M2r) ∈
          (frameLoopBody self zed left_info right_info t left_image right_image).1)) ∧
    frameLoop self zed left_info right_info (t :: rest) left_image right_image =
      (frameLoopBody self zed left_info right_info t left_image right_image).1 ++
        frameLoop self zed left_info right_info rest left_image right_image ∧
    (ZedCameraROS.new env camera_ params mem zedMem ticks).toOption.map (fun r => r.1) =
      (ZedCameraROS.new env camera_ params mem zedMem []).toOption.map (fun r => r.1) := by
  refine ⟨?_, ?_, ?_, ?_, ?_⟩
  · simp [StereoCamera.getImages, hgrab]
  · simp [frameLoopBody, StereoCamera.getImages, hgrab]
  · intro hrec
    refine ⟨?_, ?_, ?_, ?_⟩
    · simp [frameLoopBody, StereoCamera.getImages, hgrab, hrec]
    · simp [frameLoopBody, StereoCamera.getImages, hgrab, hrec]
    · intro hsub
      simp [frameLoopBody, StereoCamera.getImages, hgrab, hrec, publishIfSubscribed, hsub]
    · intro hsub
      simp [frameLoopBody, StereoCamera.getImages, hgrab, hrec, publishIfSubscribed, hsub]
  · simp [frameLoop, frameLoopBody, StereoCamera.getImages, hgrab]
  · simp only [ZedCameraROS.new, bind, Except.bind, pure, Except.pure]
    split <;> simp [Except.toOption]

/-- C8 as amended, at a pass of the HD driver in which the grab fails after
frame 0 was captured. -/
theorem failed_grab_pass_witness :
    (busyTick none).grab = none ∧
      (frameLoopBody hdReady hdZed hdOut.2.1 hdOut.2.2 (busyTick none)
        (Image.roi 0 0 0 1280 720) (Image.roi 0 1280 0 1280 720)).2
        = (Image.roi 0 0 0 1280 720, Image.roi 0 1280 0 1280 720) :=
  ⟨rfl, (failed_grab_pass hdEnv honestCamera noParams hdSelf zedMem [] hdReady hdZed hdOut.2.1
    hdOut.2.2 (busyTick none) [] (Image.roi 0 0 0 1280 720) (Image.roi 0 1280 0 1280 720)
    rfl).2.1⟩

/-- C8 as stated fails: in a pass of the HD driver in which `getImages`
returns false, the buffers still holding frame 0 are remapped and the
rectified images are published. -/
theorem failed_grab_still_rectifies :
    (frameLoopBody hdReady hdZed hdOut.2.1 hdOut.2.2 (busyTick none)
        (Image.roi 0 0 0 1280 720) (Image.roi 0 1280 0 1280 720)).1
      = [Event.getImages false,
          Event.hconcat (Image.roi 0 0 0 1280 720) (Image.roi 0 1280 0 1280 720),
          Event.remap (Image.roi 0 0 0 1280 720) hdReady.M1l hdReady.M2l,
          Event.remap (Image.roi 0 1280 0 1280 720) hdReady.M1r hdReady.M2r,
          Event.hconcat (Image.remap (Image.roi 0 0 0 1280 720) hdReady.M1l hdReady.M2l)
            (Image.remap (Image.roi 0 1280 0 1280 720) hdReady.M1r hdReady.M2r),
          Event.publishImage "left/image_rectified" "rec_left_frame"
            (Image.remap (Image.roi 0 0 0 1280 720) hdReady.M1l hdReady.M2l),
          Event.publishImage "right/image_rectified" "rec_right_frame"
            (Image.remap (Image.roi 0 1280 0 1280 720) hdReady.M1r hdReady.M2r),
          Event.publishImage "wholeRecImage" "rec_whole_frame"
            (Image.hconcat (Image.remap (Image.roi 0 0 0 1280 720) hdReady.M1l hdReady.M2l)
              (Image.remap (Image.roi 0 1280 0 1280 720) hdReady.M1r hdReady.M2r)),
          Event.publishImage "wholeRawImage" "raw_whole_frame"
            (Image.hconcat (Image.roi 0 0 0 1280 720) (Image.roi 0 1280 0 1280 720)),
          Event.publishImage "left/image_raw" "left_frame" (Image.roi 0 0 0 1280 720),
          Event.publishImage "right/image_raw" "right_frame" (Image.roi 0 1280 0 1280 720),
          Event.publishCamInfo "left/camera_info" hdOut.2.1,
          Event.publishCamInfo "right/camera_info" hdOut.2.2] ∧
      hdReady.M1l.empty = false := by
  have hrec : hdReady.rectify_image_ = true := by
    rw [hdReady_eq]
    rfl
  have hshow : hdReady.show_image_ = false := by
    rw [hdReady_eq]
    rfl
  constructor
  · simp [frameLoopBody, StereoCamera.getImages, busyTick, hrec, hshow, publishIfSubscribed,
      publishCamInfoIfSubscribed]
  · rw [hdReady_eq]
    rfl

end arti
